import Mathlib

/-!
Verification of the splunk-slack-bot core against its specification.

Shallow embedding of the repository sources:
- `admin_manager.py`   : `AdminManager` (roster, feature flags, authorization)
- `structured_logger.py`: `StructuredLogger` (append-only audit trail, exports, load)
- `splunk_client.py`   : `SplunkClient` (job dispatch, polling, result fetch)
- `slack_handlers.py`  : `format_results`
- `app.py`             : the `!splunk-query` handler

The HTTP transport, the JSON codec and the OS clock are external collaborators:
HTTP exchanges are modelled by the decoded response values the code inspects,
JSON parsing by the per-line parse outcome, and the poll loop clock by discrete
time advancing one poll interval per sleep.
-/

namespace SplunkBot

/-- A quote character: the Python strip call in `admin_manager.py` removes
single and double quotes (code points 39 and 34) from both ends. -/
def isQuoteChar (c : Char) : Bool := c == Char.ofNat 39 || c == Char.ofNat 34

/-- Drop characters satisfying `p` from both ends of a character list
(the effect of Python `str.strip(chars)`). -/
def stripEnds (p : Char → Bool) (l : List Char) : List Char :=
  ((l.dropWhile p).reverse.dropWhile p).reverse

/-- Python `str.strip()` with no argument: remove whitespace from both ends. -/
def pyStrip (s : String) : String :=
  String.mk (stripEnds Char.isWhitespace s.data)

/-- The id cleaning of `admin_manager.py` line 43 (and the env parsing at
lines 23-32): trim whitespace, then trim quote characters from both ends. -/
def cleanId (s : String) : String :=
  String.mk (stripEnds isQuoteChar (stripEnds Char.isWhitespace s.data))

/-- State of `AdminManager` (`admin_manager.py` lines 14-36): admin roster,
channel allowlist, and the two feature flags. -/
structure AdminManager where
  admin_user_ids : List String
  admin_channel_ids : List String
  spl_query_enabled : Bool
  approval_required : Bool
deriving DecidableEq

/-- `AdminManager.is_admin` (lines 40-46): clean the queried id, then exact
membership in the roster. Roster entries are compared as stored. -/
def is_admin (m : AdminManager) (user_id : String) : Bool :=
  m.admin_user_ids.contains (cleanId user_id)

/-- `AdminManager.is_admin_channel` (lines 48-50). -/
def is_admin_channel (m : AdminManager) (channel_id : String) : Bool :=
  m.admin_channel_ids.contains channel_id

/-- Denial reason when the SPL feature flag is off (line 60). -/
def disabledReason : String := "SPL query execution is currently disabled"

/-- Denial reason when the caller is not an admin (line 64). -/
def restrictedReason : String := "❌ SPL queries are restricted to admins only"

/-- Positive reason on success (line 66). -/
def grantedReason : String := "✅ Admin access granted"

/-- `AdminManager.can_execute_spl` (lines 52-66): feature flag first, admin
check second; the `channel_id` parameter is accepted but never read. -/
def can_execute_spl (m : AdminManager) (user_id : String)
    (_channel_id : Option String) : Bool × String :=
  if !m.spl_query_enabled then (false, disabledReason)
  else if !(is_admin m user_id) then (false, restrictedReason)
  else (true, grantedReason)

/-- `AdminManager.add_admin` (lines 90-94): append the raw id unless already
present (no cleaning of the argument on this path). -/
def add_admin (m : AdminManager) (user_id : String) : AdminManager :=
  if m.admin_user_ids.contains user_id then m
  else { m with admin_user_ids := m.admin_user_ids ++ [user_id] }

/-- `AdminManager.remove_admin` (lines 96-100): Python `list.remove` deletes
the first occurrence of the raw id when present. -/
def remove_admin (m : AdminManager) (user_id : String) : AdminManager :=
  if m.admin_user_ids.contains user_id then
    { m with admin_user_ids := m.admin_user_ids.erase user_id }
  else m

end SplunkBot

namespace SplunkBot

lemma contains_add_admin (m : AdminManager) (u : String) :
    (add_admin m u).admin_user_ids.contains u = true := by
  by_cases h : u ∈ m.admin_user_ids <;>
    simp [add_admin, List.elem_iff, h]

lemma contains_remove_admin (m : AdminManager) (u : String)
    (hd : m.admin_user_ids.count u ≤ 1) :
    (remove_admin m u).admin_user_ids.contains u = false := by
  by_cases h : u ∈ m.admin_user_ids
  · have hc : (m.admin_user_ids.erase u).count u = m.admin_user_ids.count u - 1 :=
      List.count_erase_self u m.admin_user_ids
    have hpos : 0 < m.admin_user_ids.count u := List.count_pos_iff.mpr h
    have hnot : u ∉ m.admin_user_ids.erase u := by
      intro hmem
      have := List.count_pos_iff.mpr hmem
      omega
    simp [remove_admin, List.elem_iff, h, hnot]
  · simp [remove_admin, List.elem_iff, h]

/-- C3: for every policy state and every user/channel pair, `can_execute_spl`
returns `(false, disabledReason)` whenever the SPL feature flag is off
regardless of admin status, `(false, restrictedReason)` whenever the flag is on
and the caller is not admin, and `(true, grantedReason)` exactly when the flag
is on and the caller is admin. -/
theorem can_execute_spl_spec (m : AdminManager) (u : String) (ch : Option String) :
    (m.spl_query_enabled = false → can_execute_spl m u ch = (false, disabledReason)) ∧
    (m.spl_query_enabled = true → is_admin m u = false →
      can_execute_spl m u ch = (false, restrictedReason)) ∧
    (m.spl_query_enabled = true → is_admin m u = true →
      can_execute_spl m u ch = (true, grantedReason)) ∧
    ((can_execute_spl m u ch).1 = true ↔
      (m.spl_query_enabled = true ∧ is_admin m u = true)) := by
  unfold can_execute_spl
  rcases hf : m.spl_query_enabled <;> rcases ha : is_admin m u <;> simp [hf, ha]

/-- Witness for C3: the three outcomes realized on concrete policy states. -/
theorem can_execute_spl_spec_witness :
    can_execute_spl ⟨["U1"], [], false, false⟩ "U1" (some "C1") = (false, disabledReason) ∧
    can_execute_spl ⟨["U1"], [], true, false⟩ "U2" (some "C1") = (false, restrictedReason) ∧
    can_execute_spl ⟨["U1"], [], true, false⟩ "U1" (some "C1") = (true, grantedReason) :=
  ⟨(can_execute_spl_spec ⟨["U1"], [], false, false⟩ "U1" (some "C1")).1 rfl,
   (can_execute_spl_spec ⟨["U1"], [], true, false⟩ "U2" (some "C1")).2.1 rfl (by decide),
   (can_execute_spl_spec ⟨["U1"], [], true, false⟩ "U1" (some "C1")).2.2.1 rfl (by decide)⟩

/-- C4: the raw-query authorization decision never depends on the channel
argument: for any two channel values (including absent) the result of
`can_execute_spl` is identical, even when the channel allowlist is non-empty
and one channel lies outside it. -/
theorem can_execute_spl_channel_independent (m : AdminManager) (u : String)
    (ch₁ ch₂ : Option String) :
    can_execute_spl m u ch₁ = can_execute_spl m u ch₂ := rfl

/-- C5 counterexample: the claim fails as stated. With an empty roster and the
user id X surrounded by single-quote characters (code point 39),
`add_admin` appends the raw id but `is_admin` strips quotes before comparing,
so `isAdmin` is false right after `addAdmin`. Moreover on a roster holding
`"A"` twice, `remove_admin` deletes only the first occurrence, so repeating it
changes the roster again: it is not idempotent. -/
theorem admin_roster_counterexample :
    is_admin
      (add_admin ⟨[], [], true, false⟩ (String.mk [Char.ofNat 39, Char.ofNat 88, Char.ofNat 39]))
      (String.mk [Char.ofNat 39, Char.ofNat 88, Char.ofNat 39]) = false ∧
    remove_admin (remove_admin ⟨["A", "A"], [], true, false⟩ "A") "A" ≠
      remove_admin ⟨["A", "A"], [], true, false⟩ "A" := by
  constructor
  · decide
  · decide

/-- C5 (amended): for every user id `u` that is unchanged by the quote/space
cleaning and every roster in which `u` occurs at most once, `addAdmin` then
`isAdmin` is true, `removeAdmin` then `isAdmin` is false, and both operations
are idempotent under repetition. -/
theorem admin_roster_ops_spec (m : AdminManager) (u : String)
    (hc : cleanId u = u) (hd : m.admin_user_ids.count u ≤ 1) :
    is_admin (add_admin m u) u = true ∧
    is_admin (remove_admin m u) u = false ∧
    add_admin (add_admin m u) u = add_admin m u ∧
    remove_admin (remove_admin m u) u = remove_admin m u := by
  refine ⟨?_, ?_, ?_, ?_⟩
  · rw [is_admin, hc]
    exact contains_add_admin m u
  · rw [is_admin, hc]
    exact contains_remove_admin m u hd
  · have h := contains_add_admin m u
    set x := add_admin m u with hx
    have hmem : u ∈ x.admin_user_ids := by simpa [List.elem_iff] using h
    simp [add_admin, hmem]
  · have h := contains_remove_admin m u hd
    set x := remove_admin m u with hx
    have hmem : u ∉ x.admin_user_ids := by simpa [List.elem_iff] using h
    simp [remove_admin, hmem]

/-- Witness for C5 (amended): concrete roster `["U1"]`, adding and removing
`"U2"`. -/
theorem admin_roster_ops_spec_witness :
    is_admin (add_admin ⟨["U1"], [], true, false⟩ "U2") "U2" = true ∧
    is_admin (remove_admin ⟨["U1"], [], true, false⟩ "U2") "U2" = false ∧
    add_admin (add_admin ⟨["U1"], [], true, false⟩ "U2") "U2" =
      add_admin ⟨["U1"], [], true, false⟩ "U2" ∧
    remove_admin (remove_admin ⟨["U1"], [], true, false⟩ "U2") "U2" =
      remove_admin ⟨["U1"], [], true, false⟩ "U2" :=
  admin_roster_ops_spec ⟨["U1"], [], true, false⟩ "U2" (by decide) (by decide)

/-- The `changes` field of an in-memory audit entry. It starts life as the
dict passed to `log_action`; `export_csv` overwrites it with the
`json.dumps` string of its previous value, so at runtime it is either a
dict or a string. -/
inductive ChangesVal where
  | dict (fields : List (String × String))
  | str (s : String)
deriving DecidableEq

/-- One in-memory audit entry as built by `StructuredLogger.log_action`
(`structured_logger.py` lines 62-73). -/
structure LogEntry where
  timestamp : String
  user_id : String
  user_name : String
  command : String
  channel_id : String
  channel_name : String
  action : String
  result : String
  changes : ChangesVal
  error : Option String
deriving DecidableEq

/-- `json.dumps` of a flat string-to-string dict, as the Python `json`
module renders it (no special characters in keys or values). -/
def jsonDumpsDict (fields : List (String × String)) : String :=
  "\x7b" ++
    String.intercalate ", "
      (fields.map (fun p => "\"" ++ p.1 ++ "\": \"" ++ p.2 ++ "\"")) ++
    "\x7d"

/-- The json.dumps call applied to the changes field in `export_csv` line 140:
a dict is
rendered as a JSON object, a string (left behind by an earlier export) as a
JSON string. -/
def jsonDumpsChanges : ChangesVal → String
  | .dict fs => jsonDumpsDict fs
  | .str s => "\"" ++ s ++ "\""

/-- Effect of `StructuredLogger.log_action` (lines 38-85) on the in-memory
sequence: append one entry at the end. -/
def log_action (logs : List LogEntry) (e : LogEntry) : List LogEntry :=
  logs ++ [e]

/-- `StructuredLogger.export_csv` (lines 123-145): returns `None` on an empty
trail; otherwise, while writing rows, line 140 assigns
the json.dumps string of the changes field back into every entry *of the
in-memory list itself*. The returned pair is (result, in-memory sequence
after the call). -/
def export_csv (logs : List LogEntry) : Option String × List LogEntry :=
  if logs.isEmpty then (none, logs)
  else
    ("logs_export.csv",
     logs.map (fun e => { e with changes := ChangesVal.str (jsonDumpsChanges e.changes) }))

/-- `StructuredLogger.export_json` (lines 113-121) only reads the sequence:
the in-memory state after the call. -/
def export_json_state (logs : List LogEntry) : List LogEntry := logs

/-- `StructuredLogger.get_recent_logs` (lines 184-186): Python slice
`self.logs[-limit:]`. For a positive `limit` this is the last `limit`
elements; for `limit = 0` the slice `[-0:]` is `[0:]`, the whole list. -/
def get_recent_logs (logs : List LogEntry) (limit : Nat) : List LogEntry :=
  if limit = 0 then logs else logs.drop (logs.length - limit)

/-- A concrete audit entry used in witnesses. -/
def sampleEntry1 : LogEntry :=
  ⟨"2024-01-01T10:00:00", "U1", "alice", "!admin-add", "C1", "general",
   "Added admin user", "SUCCESS", ChangesVal.dict [("k", "v")], none⟩

/-- A second concrete audit entry used in witnesses. -/
def sampleEntry2 : LogEntry :=
  ⟨"2024-01-01T11:00:00", "U2", "bob", "!splunk-run", "C1", "general",
   "Ran saved search", "SUCCESS", ChangesVal.dict [], some "boom"⟩

/-- A third concrete audit entry used in witnesses. -/
def sampleEntry3 : LogEntry :=
  ⟨"2024-01-01T12:00:00", "U3", "carol", "!audit-logs", "C2", "ops",
   "Viewed logs", "FAILED", ChangesVal.dict [("a", "b")], none⟩

/-- C2: the audit trail is not immutable. `export_csv` on a one-entry trail
whose entry carries the changes dict `("k", "v")` rewrites that entry in
place: afterwards the in-memory entry holds the JSON *string* of its former
changes dict, so a previously appended entry is mutated. -/
theorem export_csv_mutates_entries :
    (export_csv [sampleEntry1]).2 ≠ [sampleEntry1] ∧
    (export_csv [sampleEntry1]).2 =
      [{ sampleEntry1 with changes := ChangesVal.str "\x7b\"k\": \"v\"\x7d" }] := by
  constructor
  · decide
  · decide

/-- C6 counterexample: `recentEntries(0)` on a one-entry trail returns the
whole trail (Python `[-0:]` is `[0:]`), not the last `min(0, 1) = 0`
entries demanded by the claim. -/
theorem get_recent_logs_counterexample :
    get_recent_logs [sampleEntry1] 0 = [sampleEntry1] ∧ min 0 1 = 0 :=
  ⟨rfl, rfl⟩

/-- C6 (amended): for every trail and every limit `n ≥ 1`, `get_recent_logs`
returns exactly the last `min n totalCount` entries, still in their original
append order (they form the suffix that completes the untouched prefix). -/
theorem get_recent_logs_spec (logs : List LogEntry) (n : Nat) (hn : 1 ≤ n) :
    get_recent_logs logs n = logs.drop (logs.length - n) ∧
    (get_recent_logs logs n).length = min n logs.length ∧
    logs.take (logs.length - n) ++ get_recent_logs logs n = logs := by
  have hne : n ≠ 0 := by omega
  refine ⟨by simp [get_recent_logs, hne], ?_, ?_⟩
  · simp only [get_recent_logs, hne, if_false]
    rw [List.length_drop]
    omega
  · simp only [get_recent_logs, hne, if_false]
    exact List.take_append_drop _ logs

/-- Witness for C6 (amended): the last two of three concrete entries. -/
theorem get_recent_logs_spec_witness :
    get_recent_logs [sampleEntry1, sampleEntry2, sampleEntry3] 2 =
      [sampleEntry2, sampleEntry3] := by
  have h := (get_recent_logs_spec [sampleEntry1, sampleEntry2, sampleEntry3] 2 (by decide)).1
  rw [h]
  rfl

/-- The `isDone` value a status poll finds at
`entry[0]["content"]["isDone"]` (`splunk_client.py` line 78): a JSON
boolean, string or integer, or absent (`dict.get` returning `None`). -/
inductive PollVal where
  | pyTrue
  | pyFalse
  | pyStr (s : String)
  | pyInt (n : Int)
  | missing
deriving DecidableEq

/-- Line 80, `is_done in (True, "1", 1)`: Python tuple membership uses `==`,
and `True == 1`, so a done-state is the boolean true, the string "1" or the
integer 1. -/
def isDoneVal : PollVal → Bool
  | .pyTrue => true
  | .pyStr s => s == "1"
  | .pyInt n => n == 1
  | _ => false

/-- The poll loop of `SplunkClient.wait_for_job` (lines 63-85). Discrete
time model: the clock starts at 0 and advances by `interval` at each
`time.sleep`, so poll number `k` happens at time `k * interval` and the
`while time.time() - start < max_wait_sec` guard becomes
`k * interval < maxWait`. `responses k` is what poll `k` observes. The
result pairs the returned boolean with the number of polls performed. The
`fuel` argument only bounds the recursion; `maxWait + 1` iterations always
suffice once `interval ≥ 1`. -/
def wait_loop (responses : Nat → PollVal) (interval maxWait : Nat) :
    Nat → Nat → Bool × Nat
  | _, 0 => (false, 0)
  | k, fuel + 1 =>
    if k * interval < maxWait then
      if isDoneVal (responses k) then (true, 1)
      else
        let r := wait_loop responses interval maxWait (k + 1) fuel
        (r.1, r.2 + 1)
    else (false, 0)

/-- `SplunkClient.wait_for_job`: run the poll loop from poll 0. -/
def wait_for_job (responses : Nat → PollVal) (maxWait interval : Nat) : Bool × Nat :=
  wait_loop responses interval maxWait 0 (maxWait + 1)

lemma wait_loop_done (responses : Nat → PollVal) (interval maxWait : Nat)
    (hi : 1 ≤ interval) (d : Nat) (hd : d * interval < maxWait)
    (hfirst : ∀ j, j < d → isDoneVal (responses j) = false)
    (hdone : isDoneVal (responses d) = true) :
    ∀ fuel k, k ≤ d → maxWait + 1 ≤ k + fuel →
      wait_loop responses interval maxWait k fuel = (true, d - k + 1) := by
  intro fuel
  induction fuel with
  | zero =>
    intro k hk hf
    have hdm : d < maxWait := by
      have : d ≤ d * interval := Nat.le_mul_of_pos_right d (by omega)
      omega
    omega
  | succ f ih =>
    intro k hk hf
    rcases Nat.eq_or_lt_of_le hk with heq | hlt
    · subst heq
      simp [wait_loop, hd, hdone]
    · have hkin : k * interval < maxWait := by
        have h1 : k * interval ≤ d * interval := Nat.mul_le_mul_right interval (by omega)
        omega
      have hkf : isDoneVal (responses k) = false := hfirst k hlt
      have hrec := ih (k + 1) (by omega) (by omega)
      simp only [wait_loop, hkin, if_true, hkf, Bool.false_eq_true, if_false, hrec]
      have : d - (k + 1) + 1 + 1 = d - k + 1 := by omega
      simp [this]

lemma wait_loop_never_done (responses : Nat → PollVal) (interval maxWait : Nat)
    (hnone : ∀ j, j * interval < maxWait → isDoneVal (responses j) = false) :
    ∀ fuel k, (wait_loop responses interval maxWait k fuel).1 = false := by
  intro fuel
  induction fuel with
  | zero => intro k; simp [wait_loop]
  | succ f ih =>
    intro k
    by_cases hk : k * interval < maxWait
    · simp [wait_loop, hk, hnone k hk, ih (k + 1)]
    · simp [wait_loop, hk]

/-- C7: with a positive poll interval, (a) if the first done-state is
observed by poll `d` and poll `d` still lies inside the wait budget, then
`wait_for_job` returns `true` having performed exactly `d + 1` polls — no
poll or sleep follows the observation; (b) if no poll inside the budget
observes a done-state, it returns `false`; (c) in particular a backend that
never reports done always yields `false`. -/
theorem wait_for_job_spec (responses : Nat → PollVal) (maxWait interval d : Nat)
    (hi : 1 ≤ interval) :
    (d * interval < maxWait →
      (∀ j, j < d → isDoneVal (responses j) = false) →
      isDoneVal (responses d) = true →
      wait_for_job responses maxWait interval = (true, d + 1)) ∧
    ((∀ j, j * interval < maxWait → isDoneVal (responses j) = false) →
      (wait_for_job responses maxWait interval).1 = false) ∧
    ((∀ j, isDoneVal (responses j) = false) →
      (wait_for_job responses maxWait interval).1 = false) := by
  refine ⟨?_, ?_, ?_⟩
  · intro hd hfirst hdone
    have h := wait_loop_done responses interval maxWait hi d hd hfirst hdone
      (maxWait + 1) 0 (by omega) (by omega)
    simpa [wait_for_job] using h
  · intro hnone
    exact wait_loop_never_done responses interval maxWait hnone (maxWait + 1) 0
  · intro hnone
    exact wait_loop_never_done responses interval maxWait (fun j _ => hnone j) (maxWait + 1) 0

/-- Witness for C7: a stub backend reporting not-done twice then done on the
third poll returns `(true, 3)` inside a budget of 10; a backend that never
reports done returns `false`. -/
theorem wait_for_job_spec_witness :
    wait_for_job (fun k => if k == 2 then PollVal.pyTrue else PollVal.pyStr "0") 10 1 =
      (true, 3) ∧
    (wait_for_job (fun _ => PollVal.missing) 10 1).1 = false := by
  constructor
  · exact (wait_for_job_spec (fun k => if k == 2 then PollVal.pyTrue else PollVal.pyStr "0")
      10 1 2 (by decide)).1 (by decide)
      (by intro j hj; interval_cases j <;> rfl) (by rfl)
  · exact (wait_for_job_spec (fun _ => PollVal.missing) 10 1 0 (by decide)).2.2 (fun j => rfl)

/-- The first element of the `entry` list of a decoded job-creation
response, reduced to the one field the code reads:
`entry[0].get("content", ...).get("sid")`. -/
structure ResultEntry where
  content_sid : Option String
deriving DecidableEq

/-- Decoded body of a job-creation response, reduced to the fields
`dispatch_saved_search` and `run_spl_query` inspect: the top-level `sid`
and the `entry` list (absent when the key is missing). -/
structure JobPayload where
  sid : Option String
  entry : Option (List ResultEntry)
deriving DecidableEq

/-- An HTTP response to a job-creation POST: status code, raw body text,
decoded JSON body. -/
structure HttpResponse where
  status : Nat
  text : String
  payload : JobPayload
deriving DecidableEq

/-- Python truthiness of a possibly-absent string: `None` and `""` are
falsy. -/
def pyTruthyStr : Option String → Bool
  | none => false
  | some s => !(s == "")

/-- The exception raised by `dispatch_saved_search` (lines 49-59) and
`run_spl_query` (lines 175-185): an HTTP error carrying the status and the
response body verbatim, or a missing job id carrying the decoded payload. -/
inductive DispatchError where
  | httpError (status : Nat) (body : String)
  | noSid (payload : JobPayload)
deriving DecidableEq

/-- The sid extraction of lines 54-59 (identical at lines 179-185):
take the top-level `sid`; if falsy and a non-empty `entry` list is present,
take `entry[0]["content"]["sid"]` instead; fail if the result is falsy. -/
def extractSid (p : JobPayload) : Option String :=
  let sid := p.sid
  let sid :=
    if !pyTruthyStr sid then
      match p.entry with
      | some (e :: _) => e.content_sid
      | _ => sid
    else sid
  if pyTruthyStr sid then sid else none

/-- The SPL posted by `dispatch_saved_search` (line 33): the saved search
name wrapped in the `savedsearch` generating command. `run_spl_query` posts
the caller text verbatim instead. -/
def savedSearchSpl (saved_search_name : String) : String :=
  "| savedsearch \"" ++ saved_search_name ++ "\""

/-- `SplunkClient.dispatch_saved_search` (lines 23-61), applied to the
response of the job-creation POST: raise on status ≥ 400 with the body
text, else extract the sid, else raise with the payload. -/
def dispatch_saved_search (resp : HttpResponse) : Except DispatchError String :=
  if resp.status ≥ 400 then .error (.httpError resp.status resp.text)
  else
    match extractSid resp.payload with
    | some sid => .ok sid
    | none => .error (.noSid resp.payload)

/-- `SplunkClient.run_spl_query` (lines 152-187): the identical
status check and sid extraction (only the message prefix differs). -/
def run_spl_query (resp : HttpResponse) : Except DispatchError String :=
  if resp.status ≥ 400 then .error (.httpError resp.status resp.text)
  else
    match extractSid resp.payload with
    | some sid => .ok sid
    | none => .error (.noSid resp.payload)

/-- Written from the claim: a job id is present in one of the two accepted
shapes — a truthy top-level `sid`, or a truthy sid nested inside the first
result entry. -/
def sidPresent (p : JobPayload) : Bool :=
  pyTruthyStr p.sid ||
    (match p.entry with
     | some (e :: _) => pyTruthyStr e.content_sid
     | _ => false)

/-- Written from the claim: the sid found, looking at the top-level field
first and then inside the first result entry. -/
def foundSid (p : JobPayload) : Option String :=
  if pyTruthyStr p.sid then p.sid
  else
    match p.entry with
    | some (e :: _) => e.content_sid
    | _ => none

lemma extractSid_eq_none_iff (p : JobPayload) :
    extractSid p = none ↔ sidPresent p = false := by
  obtain ⟨psid, pentry⟩ := p
  simp only [extractSid, sidPresent]
  rcases pentry with _ | (_ | ⟨⟨csid⟩, rest⟩)
  · rcases psid with _ | s
    · simp [pyTruthyStr]
    · by_cases hs : s = "" <;> simp [pyTruthyStr, hs]
  · rcases psid with _ | s
    · simp [pyTruthyStr]
    · by_cases hs : s = "" <;> simp [pyTruthyStr, hs]
  · rcases psid with _ | s
    · rcases csid with _ | t
      · simp [pyTruthyStr]
      · by_cases ht : t = "" <;> simp [pyTruthyStr, ht]
    · by_cases hs : s = ""
      · rcases csid with _ | t
        · simp [pyTruthyStr, hs]
        · by_cases ht : t = "" <;> simp [pyTruthyStr, hs, ht]
      · simp [pyTruthyStr, hs]

lemma extractSid_of_found (p : JobPayload) (hp : sidPresent p = true) (s : String)
    (hf : foundSid p = some s) : extractSid p = some s := by
  obtain ⟨psid, pentry⟩ := p
  simp only [extractSid, sidPresent, foundSid] at hp hf ⊢
  rcases psid with _ | a
  · rcases pentry with _ | (_ | ⟨⟨csid⟩, rest⟩)
    · simp [pyTruthyStr] at hp
    · simp [pyTruthyStr] at hp
    · rcases csid with _ | t
      · simp [pyTruthyStr] at hp
      · simp_all [pyTruthyStr]
  · by_cases ha : a = ""
    · subst ha
      rcases pentry with _ | (_ | ⟨⟨csid⟩, rest⟩)
      · simp [pyTruthyStr] at hp
      · simp [pyTruthyStr] at hp
      · rcases csid with _ | t
        · simp [pyTruthyStr] at hp
        · simp_all [pyTruthyStr]
    · simp_all [pyTruthyStr]

/-- C8 counterexample: the claim requires failure on every non-2xx status,
but the code only fails on status ≥ 400. A status-302 response whose body
carries the job id `abc123` is non-2xx, yet `dispatch_saved_search`
succeeds and returns the sid. -/
theorem dispatch_counterexample :
    dispatch_saved_search ⟨302, "redirect", ⟨some "abc123", none⟩⟩ = .ok "abc123" ∧
    ¬ (200 ≤ 302 ∧ 302 ≤ 299) := by
  constructor
  · rfl
  · omega

/-- C8 (amended, non-2xx → status ≥ 400): `dispatch_saved_search` and
`run_spl_query` fail exactly when the response status is ≥ 400 (the error
carrying the body verbatim) or when no job id is present in the decoded
body in either of the two accepted shapes; otherwise they return the sid
found. -/
theorem dispatch_error_conditions (resp : HttpResponse) :
    (resp.status ≥ 400 →
      dispatch_saved_search resp = .error (.httpError resp.status resp.text) ∧
      run_spl_query resp = .error (.httpError resp.status resp.text)) ∧
    (resp.status < 400 → sidPresent resp.payload = false →
      dispatch_saved_search resp = .error (.noSid resp.payload) ∧
      run_spl_query resp = .error (.noSid resp.payload)) ∧
    (resp.status < 400 → sidPresent resp.payload = true →
      ∀ s, foundSid resp.payload = some s →
        dispatch_saved_search resp = .ok s ∧ run_spl_query resp = .ok s) ∧
    ((∃ e, dispatch_saved_search resp = .error e) ↔
      (resp.status ≥ 400 ∨ sidPresent resp.payload = false)) := by
  refine ⟨?_, ?_, ?_, ?_⟩
  · intro h
    constructor <;> simp [dispatch_saved_search, run_spl_query, h]
  · intro h hnone
    have he : extractSid resp.payload = none := (extractSid_eq_none_iff resp.payload).mpr hnone
    constructor <;> simp [dispatch_saved_search, run_spl_query, Nat.not_le_of_lt h, he]
  · intro h hp s hf
    have he : extractSid resp.payload = some s := extractSid_of_found resp.payload hp s hf
    constructor <;> simp [dispatch_saved_search, run_spl_query, Nat.not_le_of_lt h, he]
  · constructor
    · rintro ⟨e, he⟩
      by_cases h4 : resp.status ≥ 400
      · exact Or.inl h4
      · right
        rw [← extractSid_eq_none_iff]
        rcases hx : extractSid resp.payload with _ | s
        · rfl
        · simp [dispatch_saved_search, h4, hx] at he
    · rintro (h4 | hnone)
      · exact ⟨.httpError resp.status resp.text, by simp [dispatch_saved_search, h4]⟩
      · by_cases h4 : resp.status ≥ 400
        · exact ⟨.httpError resp.status resp.text, by simp [dispatch_saved_search, h4]⟩
        · have he : extractSid resp.payload = none :=
            (extractSid_eq_none_iff resp.payload).mpr hnone
          exact ⟨.noSid resp.payload, by simp [dispatch_saved_search, h4, he]⟩

/-- Witness for C8 (amended): a 503 response fails with the body verbatim;
a 201 response with no sid anywhere fails with the payload; a 201 response
with the sid nested in the first result entry returns it. -/
theorem dispatch_error_conditions_witness :
    dispatch_saved_search ⟨503, "Service Unavailable", ⟨none, none⟩⟩ =
      .error (.httpError 503 "Service Unavailable") ∧
    run_spl_query ⟨201, "ok", ⟨some "", some []⟩⟩ =
      .error (.noSid ⟨some "", some []⟩) ∧
    dispatch_saved_search ⟨201, "ok", ⟨none, some [⟨some "sid42"⟩]⟩⟩ = .ok "sid42" :=
  ⟨((dispatch_error_conditions ⟨503, "Service Unavailable", ⟨none, none⟩⟩).1 (by decide)).1,
   ((dispatch_error_conditions ⟨201, "ok", ⟨some "", some []⟩⟩).2.1 (by decide) (by decide)).2,
   (((dispatch_error_conditions ⟨201, "ok", ⟨none, some [⟨some "sid42"⟩]⟩⟩).2.2.1
      (by decide) (by decide)) "sid42" (by decide)).1⟩

/-- A result row: a backend result rendered as an ordered field-to-value
mapping (Python dict preserves insertion order). -/
abbrev Row := List (String × String)

/-- `keys_priority` from `slack_handlers.py` line 35: note the leading
underscore on the first field. -/
def keysPriority : List String :=
  ["_time", "host", "source", "sourcetype", "user", "src", "dest", "count"]

/-- Python `k in row` for a dict row: the key is present. -/
def rowHasKey (row : Row) (k : String) : Bool :=
  row.any (fun p => p.1 == k)

/-- Python `row.get(k)` rendered through an f-string: the value when the
key is present, the text None otherwise. -/
def rowGet (row : Row) (k : String) : String :=
  ((row.find? (fun p => p.1 == k)).map Prod.snd).getD "None"

/-- Lines 35-38: keys shown for one row — the present priority keys, first
four, falling back to the first four keys of the row when that list is
empty. -/
def showKeysCode (row : Row) : List String :=
  let sk := (keysPriority.filter (fun k => rowHasKey row k)).take 4
  if sk.isEmpty then (row.map Prod.fst).take 4 else sk

/-- Line 40-41: the numbered line rendered for row `i` (0-based index,
displayed 1-based). -/
def rowLine (i : Nat) (row : Row) : String :=
  toString (i + 1) ++ ". " ++
    String.intercalate ", " ((showKeysCode row).map (fun k => k ++ "=" ++ rowGet row k))

/-- `format_results` (`slack_handlers.py` lines 27-43). -/
def format_results (saved_search_name sid : String) (results : List Row) : String :=
  if results.isEmpty then
    "✅ *" ++ saved_search_name ++ "* ran successfully.\n• SID: `" ++ sid ++
      "`\n• No results found."
  else
    String.intercalate "\n"
      (["✅ *" ++ saved_search_name ++ "* results (top " ++ toString results.length ++ "):",
        "• SID: `" ++ sid ++ "`", ""] ++ results.mapIdx rowLine)

/-- Written from the claim: select up to 4 field names by the given fixed
priority order, falling back to the first 4 field names of the row, in the
row order, when none of the priority fields are present. -/
def showKeysClaim (priority : List String) (row : Row) : List String :=
  if priority.any (fun k => rowHasKey row k) then
    (priority.filter (fun k => rowHasKey row k)).take 4
  else (row.map Prod.fst).take 4

/-- Written from the claim: the rendered line for one row under a given
priority list. -/
def rowLineClaim (priority : List String) (i : Nat) (row : Row) : String :=
  toString (i + 1) ++ ". " ++
    String.intercalate ", "
      ((showKeysClaim priority row).map (fun k => k ++ "=" ++ rowGet row k))

/-- Written from the claim: the full rendering under a given priority
list, one line per row. -/
def formatResultsClaim (priority : List String) (saved_search_name sid : String)
    (results : List Row) : String :=
  String.intercalate "\n"
    (["✅ *" ++ saved_search_name ++ "* results (top " ++ toString results.length ++ "):",
      "• SID: `" ++ sid ++ "`", ""] ++ results.mapIdx (rowLineClaim priority))

/-- The priority list exactly as the claim spells it: `time` without the
underscore. -/
def keysPriorityClaimed : List String :=
  ["time", "host", "source", "sourcetype", "user", "src", "dest", "count"]

lemma showKeysCode_eq_claim (row : Row) :
    showKeysCode row = showKeysClaim keysPriority row := by
  unfold showKeysCode showKeysClaim
  rcases hf : keysPriority.filter (fun k => rowHasKey row k) with _ | ⟨k, ks⟩
  · have hany : keysPriority.any (fun k => rowHasKey row k) = false := by
      rw [List.any_eq_false]
      intro x hx
      simpa using List.filter_eq_nil_iff.mp hf x hx
    simp [hf, hany]
  · have hk : k ∈ keysPriority.filter (fun k => rowHasKey row k) := by
      rw [hf]; exact List.mem_cons_self _ _
    have hmem := List.mem_filter.mp hk
    have hany : keysPriority.any (fun k => rowHasKey row k) = true :=
      List.any_eq_true.mpr ⟨k, hmem.1, hmem.2⟩
    simp [hf, hany]

/-- C9 counterexample: the claim names `time` (no underscore) as the first
priority field. On a row whose fields are `a, b, c, d, time`, the code
finds no priority field (it looks for `_time`) and falls back to the first
four keys, while the claim as stated selects the single field `time`; the
rendered messages differ. -/
theorem format_results_counterexample :
    showKeysCode [("a", "1"), ("b", "2"), ("c", "3"), ("d", "4"), ("time", "5")] =
      ["a", "b", "c", "d"] ∧
    showKeysClaim keysPriorityClaimed
      [("a", "1"), ("b", "2"), ("c", "3"), ("d", "4"), ("time", "5")] = ["time"] ∧
    format_results "s" "sid0" [[("a", "1"), ("b", "2"), ("c", "3"), ("d", "4"), ("time", "5")]] ≠
      formatResultsClaim keysPriorityClaimed "s" "sid0"
        [[("a", "1"), ("b", "2"), ("c", "3"), ("d", "4"), ("time", "5")]] := by
  refine ⟨by decide, by decide, by decide⟩

/-- C9 (amended, the first priority field is `_time`): on an empty row
sequence `format_results` returns a success message containing the sid; on
a non-empty sequence it renders one line per row, selecting up to 4 field
names by the fixed priority order `_time, host, source, sourcetype, user,
src, dest, count` and falling back to the first 4 field names of the row,
in row order, when none of the priority fields are present. -/
theorem format_results_spec (name sid : String) (results : List Row) :
    (results = [] →
      ∃ pre post, format_results name sid results = pre ++ sid ++ post) ∧
    (results ≠ [] →
      format_results name sid results = formatResultsClaim keysPriority name sid results) := by
  constructor
  · intro h
    subst h
    exact ⟨"✅ *" ++ name ++ "* ran successfully.\n• SID: `", "`\n• No results found.", rfl⟩
  · intro h
    have hfun : rowLine = rowLineClaim keysPriority := by
      funext i row
      unfold rowLine rowLineClaim
      rw [showKeysCode_eq_claim]
    unfold format_results formatResultsClaim
    rw [hfun]
    simp [h]

/-- Witness for C9 (amended): both branches at concrete inputs — the
empty-row message contains the sid, and a one-row rendering agrees with
the claim-side rendering. -/
theorem format_results_spec_witness :
    (∃ pre post, format_results "n" "sidX" ([] : List Row) = pre ++ "sidX" ++ post) ∧
    format_results "n" "sidX" [[("host", "h1")]] =
      formatResultsClaim keysPriority "n" "sidX" [[("host", "h1")]] :=
  ⟨(format_results_spec "n" "sidX" []).1 rfl,
   (format_results_spec "n" "sidX" [[("host", "h1")]]).2 (by decide)⟩

/-- Python `str.replace(pat, rep)`: replace the non-overlapping occurrences
of `pat` left to right. Structural recursion on a fuel that starts at the
length of the scanned list; every step consumes at least one character, so
the fuel never runs out. -/
def replaceAllCharsAux (pat rep : List Char) : Nat → List Char → List Char
  | 0, s => s
  | _, [] => []
  | fuel + 1, c :: rest =>
    if pat ≠ [] ∧ pat.isPrefixOf (c :: rest) then
      rep ++ replaceAllCharsAux pat rep fuel (rest.drop (pat.length - 1))
    else c :: replaceAllCharsAux pat rep fuel rest

/-- Python `s.replace(pat, rep)` on strings (for the non-empty patterns the
code uses). -/
def pyReplace (s pat rep : String) : String :=
  String.mk (replaceAllCharsAux pat.data rep.data s.data.length s.data)

/-- Python `s[:n]`: the first `n` characters. -/
def pyTake (s : String) (n : Nat) : String := String.mk (s.data.take n)

/-- `app.py` line 1163: the query text is the message text with the
command word removed and surrounding whitespace stripped. -/
def extractQueryText (raw : String) : String :=
  pyStrip (pyReplace raw "!splunk-query" "")

/-- A chat message as the handler reads it: user id, channel id, text. -/
structure SlackMessage where
  user : String
  channel : String
  text : String
deriving DecidableEq

/-- One backend interaction of the handler: job dispatch (`run_spl_query`),
status polling (`wait_for_job`), or result fetch (`get_results`). -/
inductive BackendCall where
  | dispatch (spl : String)
  | poll (sid : String)
  | fetch (sid : String) (count : Nat)
deriving DecidableEq

/-- One event recorded through `AdminManager.audit_log` (lines 68-84):
event type, acting user, and the details mapping. -/
structure AuditEvent where
  event_type : String
  user_id : String
  details : List (String × String)
deriving DecidableEq

/-- The observable effects of one handler invocation: messages sent with
the say callback, audit events recorded, backend calls made (each list in program
order). -/
structure HandlerTrace where
  said : List String
  audits : List AuditEvent
  calls : List BackendCall
deriving DecidableEq

/-- The backend as the handler sees it: dispatch may fail with an error
text, polling yields whether the job finished within the fixed budget,
fetching may fail with an error text. -/
structure Backend where
  run_spl_query : String → Except String String
  wait_for_job : String → Bool
  get_results : String → Except String (List Row)

/-- Python repr of a string without special characters (single-quoted). -/
def pyReprStr (s : String) : String :=
  String.mk [Char.ofNat 39] ++ s ++ String.mk [Char.ofNat 39]

/-- Python `str()` of a result row (a dict of strings). -/
def pyReprRow (r : Row) : String :=
  "\x7b" ++
    String.intercalate ", " (r.map (fun p => pyReprStr p.1 ++ ": " ++ pyReprStr p.2)) ++
  "\x7d"

/-- Python `str()` of the fetched results (a list of dicts), as
interpolated into the success message at line 1197. -/
def pyReprRows (rows : List Row) : String :=
  "[" ++ String.intercalate ", " (rows.map pyReprRow) ++ "]"

/-- `handle_splunk_query` (`app.py` lines 1160-1203) as a trace builder:
authorization check first; on denial say the reason and record one
`DENIED_SPL_QUERY` audit event with the query preview truncated to 50
characters, making no backend call; otherwise usage message on empty text;
otherwise record `EXECUTED_SPL_QUERY` (preview truncated to 100), dispatch,
poll and fetch, with the `except` branch turning a raised error into an
error message plus an `ERROR_SPL_QUERY` event. -/
def handle_splunk_query (m : AdminManager) (resultLimit : Nat) (b : Backend)
    (msg : SlackMessage) : HandlerTrace :=
  let user_id := msg.user
  let channel_id := msg.channel
  let text := extractQueryText msg.text
  let check := can_execute_spl m user_id (some channel_id)
  if !check.1 then
    { said := [check.2],
      audits := [⟨"DENIED_SPL_QUERY", user_id,
        [("reason", check.2), ("channel", channel_id), ("query_preview", pyTake text 50)]⟩],
      calls := [] }
  else if text == "" then
    { said := ["*Usage:* `!splunk-query \"index=_internal | head 5\"`"],
      audits := [], calls := [] }
  else
    let execAudit : AuditEvent :=
      ⟨"EXECUTED_SPL_QUERY", user_id,
        [("channel", channel_id), ("query_preview", pyTake text 100)]⟩
    let runningMsg := "⏳ Running SPL query..."
    match b.run_spl_query text with
    | .error e =>
      { said := [runningMsg, "❌ Error running SPL query: `" ++ e ++ "`"],
        audits := [execAudit,
          ⟨"ERROR_SPL_QUERY", user_id, [("error", e), ("channel", channel_id)]⟩],
        calls := [.dispatch text] }
    | .ok sid =>
      if !b.wait_for_job sid then
        { said := [runningMsg,
            "⚠️ Query started but did not finish in time.\n• SID: `" ++ sid ++ "`"],
          audits := [execAudit],
          calls := [.dispatch text, .poll sid] }
      else
        match b.get_results sid with
        | .error e =>
          { said := [runningMsg, "❌ Error running SPL query: `" ++ e ++ "`"],
            audits := [execAudit,
              ⟨"ERROR_SPL_QUERY", user_id, [("error", e), ("channel", channel_id)]⟩],
            calls := [.dispatch text, .poll sid, .fetch sid resultLimit] }
        | .ok results =>
          { said := [runningMsg,
              "*SPL Query Results* (SID: `" ++ sid ++ "`)\n```" ++ pyReprRows results ++ "```"],
            audits := [execAudit],
            calls := [.dispatch text, .poll sid, .fetch sid resultLimit] }

lemma pyTake_length_le (s : String) (n : Nat) : (pyTake s n).length ≤ n := by
  show (s.data.take n).length ≤ n
  rw [List.length_take]
  omega

/-- C1: whenever a non-admin user invokes the raw-query command, the
handler makes no backend call at all (no dispatch, poll or fetch), replies
only with the denial reason, and records exactly one audit event — the
`DENIED_SPL_QUERY` event carrying the attempted query preview truncated to
at most 50 characters. -/
theorem handle_splunk_query_denied (m : AdminManager) (rl : Nat) (b : Backend)
    (msg : SlackMessage) (h : is_admin m msg.user = false) :
    (handle_splunk_query m rl b msg).calls = [] ∧
    (handle_splunk_query m rl b msg).said =
      [(can_execute_spl m msg.user (some msg.channel)).2] ∧
    (handle_splunk_query m rl b msg).audits =
      [⟨"DENIED_SPL_QUERY", msg.user,
        [("reason", (can_execute_spl m msg.user (some msg.channel)).2),
         ("channel", msg.channel),
         ("query_preview", pyTake (extractQueryText msg.text) 50)]⟩] ∧
    ((handle_splunk_query m rl b msg).audits.filter
        (fun a => a.event_type == "DENIED_SPL_QUERY")).length = 1 ∧
    ∀ a ∈ (handle_splunk_query m rl b msg).audits,
      ∀ v, ("query_preview", v) ∈ a.details → v.length ≤ 50 := by
  have hchk0 : (can_execute_spl m msg.user (some msg.channel)).1 = false := by
    rcases hf : m.spl_query_enabled
    · unfold can_execute_spl
      rw [hf]
      rfl
    · unfold can_execute_spl
      rw [hf, h]
      rfl
  rcases hcc : can_execute_spl m msg.user (some msg.channel) with ⟨allowed, reason⟩
  rw [hcc] at hchk0
  have ha : allowed = false := hchk0
  subst ha
  have hred : handle_splunk_query m rl b msg =
      { said := [reason],
        audits := [⟨"DENIED_SPL_QUERY", msg.user,
          [("reason", reason), ("channel", msg.channel),
           ("query_preview", pyTake (extractQueryText msg.text) 50)]⟩],
        calls := [] } := by
    simp only [handle_splunk_query]
    rw [hcc]
    rfl
  rw [hred]
  refine ⟨rfl, rfl, rfl, rfl, ?_⟩
  intro a ha v hv
  simp only [List.mem_singleton] at ha
  subst ha
  simp only [List.mem_cons] at hv
  rcases hv with hv | hv | hv | hv
  · simp at hv
  · simp at hv
  · simp only [Prod.mk.injEq] at hv
    rw [hv.2]
    exact pyTake_length_le _ _
  · simp at hv

/-- Witness for C1: a concrete non-admin user on a concrete message; the
trace evaluates to the denial reply, one DENIED audit event with the
50-character preview, and no backend call. -/
theorem handle_splunk_query_denied_witness :
    (handle_splunk_query ⟨["UADM"], [], true, false⟩ 5
      ⟨fun _ => .error "down", fun _ => false, fun _ => .error "down"⟩
      ⟨"UX", "C7", "!splunk-query index=_internal | head 5"⟩).calls = [] ∧
    (handle_splunk_query ⟨["UADM"], [], true, false⟩ 5
      ⟨fun _ => .error "down", fun _ => false, fun _ => .error "down"⟩
      ⟨"UX", "C7", "!splunk-query index=_internal | head 5"⟩).audits =
      [⟨"DENIED_SPL_QUERY", "UX",
        [("reason", restrictedReason), ("channel", "C7"),
         ("query_preview", "index=_internal | head 5")]⟩] := by
  have h := handle_splunk_query_denied ⟨["UADM"], [], true, false⟩ 5
    ⟨fun _ => .error "down", fun _ => false, fun _ => .error "down"⟩
    ⟨"UX", "C7", "!splunk-query index=_internal | head 5"⟩ (by decide)
  refine ⟨h.1, ?_⟩
  rw [h.2.2.1]
  decide

/-- A decoded JSON value, as `json.loads` can return it: the loader places
whatever parses on a line into the in-memory sequence, record-shaped or
not. -/
inductive Json where
  | null
  | bool (b : Bool)
  | num (n : Int)
  | str (s : String)
  | arr (elems : List Json)
  | obj (fields : List (String × Json))

/-- The Python exception raised by the expression the embedding models:
subscripting with a missing key, subscripting a non-dict, indexing a list
out of range, or calling a string method on a non-string. -/
inductive PyError where
  | keyError (k : String)
  | typeError
  | indexError
  | attributeError
deriving DecidableEq

/-- Python subscript `v[k]` with a string key: the value for a dict that
has the key, `KeyError` for a dict that lacks it, `TypeError` for any
non-dict value. -/
def indexKey (v : Json) (k : String) : Except PyError Json :=
  match v with
  | .obj fields =>
    match fields.find? (fun p => p.1 == k) with
    | some p => .ok p.2
    | none => .error (.keyError k)
  | _ => .error .typeError

/-- `StructuredLogger.load_logs` (`structured_logger.py` lines 24-36) over
the parse outcome of each non-blank line of the durable store (`none` for
a `json.JSONDecodeError`, which the code skips): every value that parses
is appended, with no shape validation. -/
def load_logs (lines : List (Option Json)) : List Json :=
  lines.filterMap id

/-- Python `==` between a decoded JSON value and a string: true exactly
for an equal string (numbers, booleans, containers never equal a str). -/
def jsonEqStr (v : Json) (s : String) : Bool :=
  match v with
  | .str t => t == s
  | _ => false

/-- `StructuredLogger.get_user_logs` (lines 180-182): the list
comprehension subscripts every element left to right with `user_id`; the
first failing subscript raises out of the method. -/
def get_user_logs (logs : List Json) (user_id : String) : Except PyError (List Json) :=
  match logs with
  | [] => .ok []
  | l :: rest => do
    let v ← indexKey l "user_id"
    let tail ← get_user_logs rest user_id
    pure (if jsonEqStr v user_id then l :: tail else tail)

/-- `StructuredLogger.get_logs_by_command` (lines 188-190): same shape,
keyed on `command`. -/
def get_logs_by_command (logs : List Json) (command : String) : Except PyError (List Json) :=
  match logs with
  | [] => .ok []
  | l :: rest => do
    let v ← indexKey l "command"
    let tail ← get_logs_by_command rest command
    pure (if jsonEqStr v command then l :: tail else tail)

/-- Lines 157-158: `entry["timestamp"].split("T")[1].split(".")[0]` and
`...split("T")[0]`. A non-string timestamp has no `split` method
(`AttributeError`); a string without a `T` yields a single-element split,
so the `[1]` subscript raises `IndexError`. -/
def processTimestamp (v : Json) : Except PyError (String × String) :=
  match v with
  | .str s =>
    match s.splitOn "T" with
    | _ :: t1 :: _ => .ok (((t1.splitOn ".").headD ""), ((s.splitOn "T").headD ""))
    | _ => .error .indexError
  | _ => .error .attributeError

/-- The per-entry body of the `export_txt` loop (lines 156-173), keeping
only the subscripts and method calls that can raise, in program order. -/
def exportTxtEntry (entry : Json) : Except PyError Unit := do
  let ts ← indexKey entry "timestamp"
  let _ ← processTimestamp ts
  let _ ← indexKey entry "user_name"
  let _ ← indexKey entry "user_id"
  let _ ← indexKey entry "channel_name"
  let _ ← indexKey entry "channel_id"
  let _ ← indexKey entry "command"
  let _ ← indexKey entry "action"
  let _ ← indexKey entry "result"
  let _ ← indexKey entry "changes"
  let _ ← indexKey entry "error"
  pure ()

/-- The `try` body of `StructuredLogger.export_txt` (lines 149-175):
process every entry; the first raising entry aborts the body. -/
def export_txt_body (logs : List Json) : Except PyError String :=
  match logs with
  | [] => .ok "logs_export.txt"
  | e :: rest => do
    let _ ← exportTxtEntry e
    export_txt_body rest

/-- `StructuredLogger.export_txt` (lines 147-178): the `except` clause
catches everything raised in the body and returns `None` instead. -/
def export_txt (logs : List Json) : Option String :=
  match export_txt_body logs with
  | .ok p => some p
  | .error _ => none

/-- C10 counterexample: the claim says `export_txt` raises an error on a
retained non-record entry. On the loaded store containing the JSON number
3, the indexing inside the export body does fail (a `TypeError`), but
`export_txt` catches every exception itself and returns its failure
indicator `None` — it does not raise. -/
theorem export_txt_counterexample :
    export_txt_body (load_logs [some (Json.num 3)]) = .error PyError.typeError ∧
    export_txt (load_logs [some (Json.num 3)]) = none :=
  ⟨rfl, rfl⟩

/-- C10 (amended: the two query helpers raise; `export_txt` fails wholesale
with its failure indicator, the indexing error being caught internally):
loading validates only JSON well-formedness. A store whose lines are the
JSON number 3 and an object without the audit-record fields loads both
values verbatim (only the unparsable line is skipped); afterwards
`get_user_logs` and `get_logs_by_command` raise (`TypeError` on the
number, `KeyError` on the field-less object) instead of skipping, and
`export_txt` aborts, returning `None` while its body raises internally. -/
theorem load_logs_no_shape_validation :
    load_logs [some (Json.num 3), none, some (Json.obj [("foo", Json.str "bar")])] =
      [Json.num 3, Json.obj [("foo", Json.str "bar")]] ∧
    get_user_logs [Json.num 3, Json.obj [("foo", Json.str "bar")]] "U1" =
      .error PyError.typeError ∧
    get_user_logs [Json.obj [("foo", Json.str "bar")]] "U1" =
      .error (PyError.keyError "user_id") ∧
    get_logs_by_command [Json.num 3, Json.obj [("foo", Json.str "bar")]] "!x" =
      .error PyError.typeError ∧
    get_logs_by_command [Json.obj [("foo", Json.str "bar")]] "!x" =
      .error (PyError.keyError "command") ∧
    export_txt_body [Json.num 3, Json.obj [("foo", Json.str "bar")]] =
      .error PyError.typeError ∧
    export_txt [Json.num 3, Json.obj [("foo", Json.str "bar")]] = none :=
  ⟨rfl, rfl, rfl, rfl, rfl, rfl, rfl⟩

end SplunkBot
